import Mathlib

/-!
Verification of the EV-simulation backend (`src/api/index.js`).

The backend keeps, per user, three persisted records:
  * a Firestore `vehicles` document (running flag, start time, start battery,
    drain rate, notification flag, last persisted battery level),
  * a Realtime-Database `vehicles` record (live position and battery mirror),
  * a Firestore `navigation` document (active navigation target and arrival flag).

The route handlers are embedded as pure functions on a `ServerState` bundling
those three records.  JavaScript numbers are modelled by `ℚ`; timestamps are
rationals in milliseconds (the code computes `(new Date() - startTime) / 1000`
to obtain elapsed seconds).  A field that may be `undefined`/`null` is an
`Option ℚ`.  JavaScript truthiness of a number-or-null value (`x || d`,
`if (x)`) is `numTruthy`; nullish coalescing (`x ?? d`) is `Option.getD`.
`Math.round` (round half toward +∞) is `jsRound`.

The haversine helper `getDistanceFromLatLonInKm` evaluates trigonometric
functions on floats; the status handler only consumes its result through the
comparison `distance < 0.05`.  The embedding therefore takes the distance
function as a parameter `distKm` of the status handler, standing for
`getDistanceFromLatLonInKm`.
-/

/-- The Firestore `vehicles/{email}` document.  `docExists` models
`vehicleDoc.exists`.  Fields absent from the document are `none`. -/
structure VehicleDoc where
  docExists : Bool
  isRunning : Bool
  startTime : Option ℚ
  startBatteryLevel : Option ℚ
  drainRate : Option ℚ
  notificationSent : Bool
  batteryLevel : Option ℚ
  deriving DecidableEq

/-- The Realtime-Database `vehicles/{email}` record (live mirror). -/
structure RtdbVehicle where
  docExists : Bool
  isRunning : Bool
  latitude : Option ℚ
  longitude : Option ℚ
  batteryLevel : Option ℚ
  deriving DecidableEq

/-- The Firestore `navigation/{email}` document. -/
structure NavDoc where
  docExists : Bool
  isNavigating : Bool
  isRunning : Bool
  end_lat : ℚ
  end_lng : ℚ
  vehicleReachedStation : Bool
  deriving DecidableEq

/-- All persisted state the embedded handlers read and write. -/
structure ServerState where
  vehicle : VehicleDoc
  rtdb : RtdbVehicle
  nav : NavDoc
  deriving DecidableEq

/-- The JSON body returned by `GET /api/status`.  `arrivalCompleted = none`
means the field is absent from the response object. -/
structure StatusResponse where
  isRunning : Bool
  batteryLevel : ℚ
  latitude : Option ℚ
  longitude : Option ℚ
  arrivalCompleted : Option Bool
  deriving DecidableEq

/-- Result of one `GET /api/status` poll: the response body, the state after
all writes, and whether the low-battery notification was dispatched. -/
structure PollResult where
  response : StatusResponse
  state : ServerState
  dispatched : Bool
  deriving DecidableEq

/-- Result of a mutating handler: HTTP status code, message, state after. -/
structure HandlerResult where
  statusCode : Nat
  message : String
  state : ServerState
  deriving DecidableEq

/-- JavaScript truthiness of a number-or-null/undefined value:
`undefined`, `null` and `0` are falsy; every other number is truthy. -/
def numTruthy : Option ℚ → Bool
  | none => false
  | some x => x != 0

/-- JavaScript `v || d` for a number-or-null/undefined `v`. -/
def jsOrNum (v : Option ℚ) (d : ℚ) : ℚ :=
  if numTruthy v then v.getD d else d

/-- JavaScript `v || null` for a number-or-null/undefined `v`
(line 192-193: `status.latitude = rtdbData.latitude || null`). -/
def jsOrNull (v : Option ℚ) : Option ℚ :=
  if numTruthy v then v else none

/-- `Math.round`: round half toward positive infinity. -/
def jsRound (x : ℚ) : ℤ :=
  ⌊x + 1 / 2⌋

/-- Lines 214-215: `Math.max(0, Math.round(startBatteryLevel - elapsedSeconds * drainRate))`. -/
def projectBattery (startBatteryLevel drainRate elapsedSeconds : ℚ) : ℤ :=
  max 0 (jsRound (startBatteryLevel - elapsedSeconds * drainRate))

/-- Lines 211-215 of the status handler: drain-rate fallback
(`data.drainRate || 2.0`), elapsed seconds from the stored start time, and
the projected current battery level. -/
def pollBatteryLevel (data : VehicleDoc) (now : ℚ) : ℤ :=
  projectBattery (data.startBatteryLevel.getD 0) (jsOrNum data.drainRate 2)
    ((now - data.startTime.getD 0) / 1000)

/-- Line 192: `status.latitude = rtdbData.latitude || null` (only when the
RTDB record exists; otherwise the initial `null`). -/
def rtdbStatusLat (s : ServerState) : Option ℚ :=
  if s.rtdb.docExists then jsOrNull s.rtdb.latitude else none

/-- Line 193: `status.longitude = rtdbData.longitude || null`. -/
def rtdbStatusLng (s : ServerState) : Option ℚ :=
  if s.rtdb.docExists then s.rtdb.longitude |> jsOrNull else none

/-- Line 194: `status.batteryLevel = rtdbData.batteryLevel ?? 100` (initial
value 100 when the RTDB record does not exist). -/
def rtdbStatusBattery (s : ServerState) : ℚ :=
  if s.rtdb.docExists then s.rtdb.batteryLevel.getD 100 else 100

/-- Line 216: `status.isRunning = currentBatteryLevel > 0 && data.isRunning`. -/
def statusIsRunning2 (s : ServerState) (now : ℚ) : Bool :=
  decide (0 < pollBatteryLevel s.vehicle now) && s.vehicle.isRunning

/-- Lines 219-226, the arrival condition: the derived `status.isRunning`,
truthy `status.latitude` and `status.longitude` (the values set on lines
192-193), an existing navigation document with `isNavigating`, and distance
below 0.05 km.  The source nests these as three `if`s (lines 219, 222, 226)
with no writes between the tests, so one conjunction is equivalent. -/
def arriveCheck (distKm : ℚ → ℚ → ℚ → ℚ → ℚ) (s : ServerState) (now : ℚ) : Bool :=
  statusIsRunning2 s now && numTruthy (rtdbStatusLat s) && numTruthy (rtdbStatusLng s)
    && s.nav.docExists && s.nav.isNavigating
    && decide (distKm ((rtdbStatusLat s).getD 0) ((rtdbStatusLng s).getD 0)
         s.nav.end_lat s.nav.end_lng < 0.05)

/-- Line 238: `Math.abs(currentBatteryLevel - status.batteryLevel) >= 1`.
`status.batteryLevel` still holds the value set on line 194 at this point
(the arrival block does not modify it). -/
def persistCheck (s : ServerState) (now : ℚ) : Bool :=
  decide (1 ≤ |((pollBatteryLevel s.vehicle now : ℤ) : ℚ) - rtdbStatusBattery s|)

/-- Line 243: `currentBatteryLevel <= 20 && !data.notificationSent`
(`data` is the document as read at the start of the poll). -/
def dispatchCheck (s : ServerState) (now : ℚ) : Bool :=
  decide (pollBatteryLevel s.vehicle now ≤ 20) && !s.vehicle.notificationSent

/-- Line 247: `currentBatteryLevel <= 0 && data.isRunning`. -/
def depleteCheck (s : ServerState) (now : ℚ) : Bool :=
  decide (pollBatteryLevel s.vehicle now ≤ 0) && s.vehicle.isRunning

/-- `GET /api/status` (lines 182-256).  `distKm` stands for
`getDistanceFromLatLonInKm`; `now` is the current wall-clock time in
milliseconds.  Follows the handler line by line:
initial snapshot from the RTDB record; early return when the vehicle document
is missing; the not-running / incomplete-run branch re-reporting a stored
arrival; otherwise battery projection, arrival detection (lines 218-235),
conditional RTDB battery persistence (lines 238-241), notification gating
(lines 243-246), and the depletion check (lines 247-251). -/
def statusPoll (distKm : ℚ → ℚ → ℚ → ℚ → ℚ) (s : ServerState) (now : ℚ) :
    PollResult :=
  let status0 : StatusResponse :=
    { isRunning := false, batteryLevel := rtdbStatusBattery s,
      latitude := rtdbStatusLat s, longitude := rtdbStatusLng s,
      arrivalCompleted := none }
  if !s.vehicle.docExists then
    { response := status0, state := s, dispatched := false }
  else
    let status1 := { status0 with isRunning := s.vehicle.isRunning }
    if !s.vehicle.isRunning || s.vehicle.startTime.isNone
        || s.vehicle.startBatteryLevel.isNone then
      let status2 :=
        if s.nav.docExists && s.nav.vehicleReachedStation then
          { status1 with arrivalCompleted := some true }
        else status1
      { response := status2, state := s, dispatched := false }
    else
      let current : ℤ := pollBatteryLevel s.vehicle now
      let status2 := { status1 with isRunning := statusIsRunning2 s now }
      let arrive : Bool := arriveCheck distKm s now
      let status3 :=
        if arrive then { status2 with isRunning := false, arrivalCompleted := some true }
        else status2
      let s3 : ServerState :=
        if arrive then
          { s with
            vehicle := { s.vehicle with isRunning := false, batteryLevel := some (current : ℚ) },
            rtdb := { s.rtdb with docExists := true, isRunning := false, batteryLevel := some (current : ℚ) },
            nav := { s.nav with vehicleReachedStation := true } }
        else s
      let persistBat : Bool := persistCheck s now
      let status4 :=
        if persistBat then { status3 with batteryLevel := (current : ℚ) } else status3
      let s4 :=
        if persistBat then
          { s3 with rtdb := { s3.rtdb with docExists := true, batteryLevel := some (current : ℚ) } }
        else s3
      let dispatch : Bool := dispatchCheck s now
      let s5 :=
        if dispatch then { s4 with vehicle := { s4.vehicle with notificationSent := true } }
        else s4
      let deplete : Bool := depleteCheck s now
      let status6 := if deplete then { status4 with isRunning := false } else status4
      let s6 :=
        if deplete then
          { s5 with
            vehicle := { s5.vehicle with isRunning := false, batteryLevel := some 0 },
            rtdb := { s5.rtdb with docExists := true, isRunning := false, batteryLevel := some 0 } }
        else s5
      { response := status6, state := s6, dispatched := dispatch }

/-- `POST /api/start` (lines 258-276).  `initialBattery` and `drainRate` are
the optional request-body numbers (`none` = absent).  Truthiness defaults:
`initialBattery ? Number(initialBattery) : (doc.batteryLevel ?? 100)` and
`drainRate ? Number(drainRate) : 2.0`.  The Firestore `set(..., {merge:true})`
keeps the stored `batteryLevel` field. -/
def startHandler (s : ServerState) (now : ℚ) (initialBattery drainRate : Option ℚ) :
    HandlerResult :=
  if s.vehicle.docExists && s.vehicle.isRunning then
    { statusCode := 400, message := "Car is already running.", state := s }
  else
    let startBatteryLevel : ℚ :=
      if numTruthy initialBattery then initialBattery.getD 0
      else if s.vehicle.docExists then s.vehicle.batteryLevel.getD 100
      else 100
    let currentDrainRate : ℚ := if numTruthy drainRate then drainRate.getD 0 else 2
    { statusCode := 200, message := "EV car simulation started.", state :=
        { s with
          vehicle := { s.vehicle with docExists := true, isRunning := true, notificationSent := false, startTime := some now, startBatteryLevel := some startBatteryLevel, drainRate := some currentDrainRate },
          rtdb := { s.rtdb with docExists := true, isRunning := true, batteryLevel := some startBatteryLevel } } }

/-- `POST /api/stop` (line 277): conflict when not running; inconsistent-state
branch stops without computing a battery level; otherwise computes the final
battery exactly like the status handler and persists it. -/
def stopHandler (s : ServerState) (now : ℚ) : HandlerResult :=
  if !s.vehicle.docExists || !s.vehicle.isRunning then
    { statusCode := 400, message := "Car is not running.", state := s }
  else if s.vehicle.startTime.isNone || s.vehicle.startBatteryLevel.isNone then
    { statusCode := 400, message := "Inconsistent car state. Stopping.", state := { s with vehicle := { s.vehicle with isRunning := false } } }
  else
    let finalBatteryLevel : ℤ := pollBatteryLevel s.vehicle now
    { statusCode := 200, message := "EV car stopped.", state :=
        { s with
          vehicle := { s.vehicle with isRunning := false, batteryLevel := some (finalBatteryLevel : ℚ) },
          rtdb := { s.rtdb with docExists := true, isRunning := false, batteryLevel := some (finalBatteryLevel : ℚ) } } }

/-- `POST /api/update-drain-rate` (lines 164-181): conflict when the vehicle
document is missing or not running; otherwise persists `Number(drainRate)`
unconditionally (no positivity check). -/
def updateDrainRateHandler (s : ServerState) (drainRate : ℚ) : HandlerResult :=
  if !s.vehicle.docExists || !s.vehicle.isRunning then
    { statusCode := 400, message := "Cannot update drain rate for a vehicle that is not running.", state := s }
  else
    { statusCode := 200, message := "Drain rate updated.", state := { s with vehicle := { s.vehicle with drainRate := some drainRate } } }

/-- `POST /api/end-navigation` (lines 114-130): clears `isNavigating`,
`isRunning` and `vehicleReachedStation` on the navigation document; a missing
document (Firestore error code 5) is a 200 no-op. -/
def endNavigationHandler (s : ServerState) : HandlerResult :=
  if s.nav.docExists then
    { statusCode := 200, message := "Navigation request has been cleared.", state :=
        { s with nav := { s.nav with isNavigating := false, isRunning := false, vehicleReachedStation := false } } }
  else
    { statusCode := 200, message := "No active navigation request to clear.", state := s }

/-- `POST /api/reset` (line 278): forces idle, battery 100, clears the
notification flag on the vehicle document and the position on the RTDB record. -/
def resetHandler (s : ServerState) : HandlerResult :=
  { statusCode := 200, message := "Simulation has been reset.", state :=
      { s with
        vehicle := { s.vehicle with docExists := true, isRunning := false, batteryLevel := some 100, notificationSent := false },
        rtdb := { s.rtdb with docExists := true, isRunning := false, batteryLevel := some 100, latitude := none, longitude := none } } }

/-- A sequence of status polls at the given times: final state and the number
of polls that dispatched the low-battery notification. -/
def pollSeq (distKm : ℚ → ℚ → ℚ → ℚ → ℚ) : ServerState → List ℚ → ServerState × ℕ
  | s, [] => (s, 0)
  | s, t :: ts =>
    let r := statusPoll distKm s t
    let rest := pollSeq distKm r.state ts
    (rest.1, (if r.dispatched then 1 else 0) + rest.2)

/-!  ## Concrete states used to instantiate the theorems  -/

/-- A distance function standing in for the haversine when the vehicle is far
from the target (1 km everywhere). -/
def dkFar : ℚ → ℚ → ℚ → ℚ → ℚ := fun _ _ _ _ => 1

/-- A distance function standing in for the haversine when the vehicle is
within 50 m of the target (10 m everywhere). -/
def dkNear : ℚ → ℚ → ℚ → ℚ → ℚ := fun _ _ _ _ => 1 / 100

/-- A running vehicle document: started at time 0 from a full battery with
drain rate 2 %/s. -/
def vRun : VehicleDoc :=
  { docExists := true, isRunning := true, startTime := some 0,
    startBatteryLevel := some 100, drainRate := some 2, notificationSent := false,
    batteryLevel := some 100 }

/-- A live RTDB mirror at position (10, 20) with battery 100. -/
def rtRun : RtdbVehicle :=
  { docExists := true, isRunning := true, latitude := some 10, longitude := some 20,
    batteryLevel := some 100 }

/-- An active navigation target. -/
def navRun : NavDoc :=
  { docExists := true, isNavigating := true, isRunning := true,
    end_lat := 10, end_lng := 20, vehicleReachedStation := false }

/-- A running, navigating vehicle. -/
def sRun : ServerState := { vehicle := vRun, rtdb := rtRun, nav := navRun }

/-- The running vehicle after its low-battery notification was dispatched. -/
def sNotifSent : ServerState :=
  { sRun with vehicle := { vRun with notificationSent := true } }

/-- The same vehicle with the document marked idle. -/
def sIdle : ServerState := { sRun with vehicle := { vRun with isRunning := false } }

/-- An arrived state: idle vehicle, `vehicleReachedStation` set. -/
def sArrived : ServerState :=
  { vehicle := { vRun with isRunning := false, batteryLevel := some 80 },
    rtdb := { rtRun with isRunning := false, batteryLevel := some 80 },
    nav := { navRun with vehicleReachedStation := true } }

/-- A depleted state: idle vehicle with battery 0 in both stores. -/
def sDepleted : ServerState :=
  { vehicle := { vRun with isRunning := false, batteryLevel := some 0 },
    rtdb := { rtRun with isRunning := false, batteryLevel := some 0 },
    nav := navRun }

/-- The running state with a stored latitude of exactly 0. -/
def sLat0 : ServerState := { sRun with rtdb := { rtRun with latitude := some 0 } }

/-- An idle vehicle whose document has no `batteryLevel` field. -/
def sNoBat : ServerState :=
  { sRun with vehicle := { vRun with isRunning := false, batteryLevel := none } }

/-- A running vehicle document whose stored drain rate is 0. -/
def vDrain0 : VehicleDoc := { vRun with drainRate := some 0 }

/-!  ## General lemmas about the status poll  -/

/-- Two integers of `ℚ` within distance less than 1 coincide. -/
lemma rat_int_close (m k : ℤ) (h : |(m : ℚ) - (k : ℚ)| < 1) : m = k := by
  have h2 : |((m - k : ℤ) : ℚ)| < 1 := by push_cast; exact h
  rw [← Int.cast_abs] at h2
  have h3 : |m - k| < 1 := by exact_mod_cast h2
  have h4 := abs_lt.mp h3
  omega

/-- When the conditional RTDB write of line 238 is skipped and the reported
battery level is an integer, it already equals the projected level. -/
lemma persistCheck_false_eq (s : ServerState) (now : ℚ) (k : ℤ)
    (hk : rtdbStatusBattery s = (k : ℚ)) (hP : persistCheck s now = false) :
    rtdbStatusBattery s = ((pollBatteryLevel s.vehicle now : ℤ) : ℚ) := by
  rw [hk]
  have h1 : ¬(1 ≤ |((pollBatteryLevel s.vehicle now : ℤ) : ℚ) - rtdbStatusBattery s|) := by
    simpa [persistCheck] using hP
  rw [hk] at h1
  have h2 := rat_int_close (pollBatteryLevel s.vehicle now) k (by linarith [not_le.mp h1])
  exact_mod_cast congrArg (fun z : ℤ => ((z : ℤ) : ℚ)) h2.symm

/-- A poll on a state whose `notificationSent` flag is set never dispatches a
notification and keeps the flag set. -/
lemma statusPoll_flag_true_no_dispatch (dk : ℚ → ℚ → ℚ → ℚ → ℚ) (s : ServerState) (now : ℚ)
    (h : s.vehicle.notificationSent = true) :
    (statusPoll dk s now).dispatched = false ∧
      (statusPoll dk s now).state.vehicle.notificationSent = true := by
  have hd : dispatchCheck s now = false := by simp [dispatchCheck, h]
  unfold statusPoll
  by_cases hA : arriveCheck dk s now <;>
    by_cases hP : persistCheck s now <;>
      by_cases hDp : depleteCheck s now
  all_goals simp_all
  all_goals try (split <;> simp_all)
  all_goals try (split <;> simp_all)

/-- A poll that dispatches the low-battery notification persists
`notificationSent = true` (lines 243-246). -/
lemma statusPoll_dispatch_sets_flag (dk : ℚ → ℚ → ℚ → ℚ → ℚ) (s : ServerState) (now : ℚ)
    (h : (statusPoll dk s now).dispatched = true) :
    (statusPoll dk s now).state.vehicle.notificationSent = true := by
  unfold statusPoll at h ⊢
  by_cases hA : arriveCheck dk s now <;>
    by_cases hP : persistCheck s now <;>
      by_cases hD : dispatchCheck s now <;>
        by_cases hDp : depleteCheck s now
  all_goals simp_all
  all_goals try (split at h <;> simp_all)
  all_goals try (split <;> simp_all)

/-- No status poll ever clears `vehicleReachedStation`: the only write to it
in the poll is the arrival write setting it to `true` (line 230). -/
lemma statusPoll_reach_preserved (dk : ℚ → ℚ → ℚ → ℚ → ℚ) (s : ServerState) (now : ℚ)
    (h : s.nav.vehicleReachedStation = true) :
    (statusPoll dk s now).state.nav.vehicleReachedStation = true := by
  unfold statusPoll
  by_cases hA : arriveCheck dk s now <;>
    by_cases hP : persistCheck s now <;>
      by_cases hD : dispatchCheck s now <;>
        by_cases hDp : depleteCheck s now
  all_goals simp_all
  all_goals try (split <;> simp_all)
  all_goals try (split <;> simp_all)

/-- Over any sequence of status polls from a state whose `notificationSent`
flag is set, no notification is dispatched. -/
lemma pollSeq_flag_true (dk : ℚ → ℚ → ℚ → ℚ → ℚ) (times : List ℚ) :
    ∀ s : ServerState, s.vehicle.notificationSent = true →
      (pollSeq dk s times).2 = 0 := by
  induction times with
  | nil => intro s _; rfl
  | cons t ts ih =>
    intro s h
    obtain ⟨h1, h2⟩ := statusPoll_flag_true_no_dispatch dk s t h
    simp [pollSeq, h1, ih _ h2]

/-- At most one notification dispatch over any sequence of status polls. -/
lemma pollSeq_dispatch_le_one (dk : ℚ → ℚ → ℚ → ℚ → ℚ) (times : List ℚ) :
    ∀ s : ServerState, (pollSeq dk s times).2 ≤ 1 := by
  induction times with
  | nil => intro s; simp [pollSeq]
  | cons t ts ih =>
    intro s
    by_cases h : (statusPoll dk s t).dispatched
    · have hflag := statusPoll_dispatch_sets_flag dk s t h
      simp [pollSeq, h, pollSeq_flag_true dk ts _ hflag]
    · simp only [pollSeq, h]
      simpa using ih (statusPoll dk s t).state

/-!  ## The claims  -/

/-- C1: for a running vehicle with stored `startBatteryLevel`, `drainRate`
and `startTime`, the battery level computed by a `GET /api/status` poll is
`max(0, round(startBatteryLevel - elapsedSeconds * drainRate))` with
`elapsedSeconds = (now - startTime) / 1000`; the computation depends only on
those three stored fields and the current time, and (whenever the mirrored
RTDB battery level is an integer) it is also the level the poll reports. -/
theorem status_poll_battery_formula
    (distKm : ℚ → ℚ → ℚ → ℚ → ℚ) (s : ServerState) (d' : VehicleDoc)
    (now t b r : ℚ) (k : ℤ)
    (hex : s.vehicle.docExists = true)
    (hrun : s.vehicle.isRunning = true)
    (hst : s.vehicle.startTime = some t)
    (hsb : s.vehicle.startBatteryLevel = some b)
    (hdr : s.vehicle.drainRate = some r)
    (hr : r ≠ 0)
    (ht' : d'.startTime = some t)
    (hb' : d'.startBatteryLevel = some b)
    (hd' : d'.drainRate = some r)
    (hk : rtdbStatusBattery s = (k : ℚ)) :
    pollBatteryLevel s.vehicle now = max 0 (jsRound (b - ((now - t) / 1000) * r)) ∧
      pollBatteryLevel d' now = pollBatteryLevel s.vehicle now ∧
      (statusPoll distKm s now).response.batteryLevel
        = ((pollBatteryLevel s.vehicle now : ℤ) : ℚ) := by
  refine ⟨?_, ?_, ?_⟩
  · simp [pollBatteryLevel, projectBattery, jsOrNum, numTruthy, hst, hsb, hdr, hr]
  · simp [pollBatteryLevel, projectBattery, jsOrNum, numTruthy, hst, hsb, hdr, hr, ht', hb', hd']
  · unfold statusPoll
    by_cases hA : arriveCheck distKm s now <;>
      by_cases hP : persistCheck s now <;>
        by_cases hDp : depleteCheck s now
    all_goals simp_all [persistCheck_false_eq s now k hk]

theorem status_poll_battery_formula_witness :
    pollBatteryLevel sRun.vehicle 10000 = max 0 (jsRound (100 - ((10000 - 0) / 1000) * 2)) ∧
      pollBatteryLevel vRun 10000 = pollBatteryLevel sRun.vehicle 10000 ∧
      (statusPoll dkFar sRun 10000).response.batteryLevel
        = ((pollBatteryLevel sRun.vehicle 10000 : ℤ) : ℚ) :=
  status_poll_battery_formula dkFar sRun vRun 10000 0 100 2 100 rfl rfl rfl rfl rfl
    (by norm_num) rfl rfl rfl (by norm_num [rtdbStatusBattery, sRun, rtRun])

/-- C2: for `startBatteryLevel` in [0,100] and `drainRate > 0`, the projected
battery level is non-increasing in `elapsedSeconds` over `elapsedSeconds ≥ 0`
and lies in [0,100]. -/
theorem projectBattery_monotone_bounded (b r e₁ e₂ : ℚ)
    (hb0 : 0 ≤ b) (hb1 : b ≤ 100) (hr : 0 < r) (he : 0 ≤ e₁) (h12 : e₁ ≤ e₂) :
    projectBattery b r e₂ ≤ projectBattery b r e₁ ∧
      0 ≤ projectBattery b r e₁ ∧ projectBattery b r e₁ ≤ 100 := by
  refine ⟨?_, le_max_left _ _, ?_⟩
  · apply max_le_max le_rfl
    apply Int.floor_le_floor
    have h1 : e₁ * r ≤ e₂ * r := mul_le_mul_of_nonneg_right h12 hr.le
    linarith
  · apply max_le (by norm_num)
    have h1 : 0 ≤ e₁ * r := mul_nonneg he hr.le
    have h2 : ⌊(b - e₁ * r + 1 / 2 : ℚ)⌋ < 101 := by
      rw [Int.floor_lt]
      push_cast
      linarith
    unfold jsRound
    omega

theorem projectBattery_monotone_bounded_witness :
    projectBattery 100 2 20 ≤ projectBattery 100 2 10 ∧
      0 ≤ projectBattery 100 2 10 ∧ projectBattery 100 2 10 ≤ 100 :=
  projectBattery_monotone_bounded 100 2 10 20 (by norm_num) (by norm_num) (by norm_num)
    (by norm_num) (by norm_num)

/-- C3: on a poll where the vehicle is still running after projection, an
active navigation target exists and the position is known (truthy), an
arrival event occurs exactly when the distance to `(end_lat, end_lng)` is
below 0.05 km; on arrival the handler stops the vehicle, persists the
projected battery level in both stores, sets `vehicleReachedStation` and
reports `arrivalCompleted = true` with `isRunning = false`. -/
theorem arrival_detection_iff
    (distKm : ℚ → ℚ → ℚ → ℚ → ℚ) (s : ServerState) (now t b : ℚ)
    (hex : s.vehicle.docExists = true)
    (hrun : s.vehicle.isRunning = true)
    (hst : s.vehicle.startTime = some t)
    (hsb : s.vehicle.startBatteryLevel = some b)
    (hcur : 0 < pollBatteryLevel s.vehicle now)
    (hrt : s.rtdb.docExists = true)
    (hlat : numTruthy s.rtdb.latitude = true)
    (hlng : numTruthy s.rtdb.longitude = true)
    (hnav : s.nav.docExists = true)
    (hnavg : s.nav.isNavigating = true) :
    ((statusPoll distKm s now).response.arrivalCompleted = some true
        ↔ distKm (s.rtdb.latitude.getD 0) (s.rtdb.longitude.getD 0)
            s.nav.end_lat s.nav.end_lng < 0.05) ∧
      (distKm (s.rtdb.latitude.getD 0) (s.rtdb.longitude.getD 0)
          s.nav.end_lat s.nav.end_lng < 0.05 →
        (statusPoll distKm s now).state.vehicle.isRunning = false ∧
          (statusPoll distKm s now).state.vehicle.batteryLevel
            = some ((pollBatteryLevel s.vehicle now : ℤ) : ℚ) ∧
          (statusPoll distKm s now).state.rtdb.batteryLevel
            = some ((pollBatteryLevel s.vehicle now : ℤ) : ℚ) ∧
          (statusPoll distKm s now).state.nav.vehicleReachedStation = true ∧
          (statusPoll distKm s now).response.isRunning = false) := by
  have hlatS : rtdbStatusLat s = s.rtdb.latitude := by
    simp [rtdbStatusLat, jsOrNull, hrt, hlat]
  have hlngS : rtdbStatusLng s = s.rtdb.longitude := by
    simp [rtdbStatusLng, jsOrNull, hrt, hlng]
  have hAiff : arriveCheck distKm s now
      = decide (distKm (s.rtdb.latitude.getD 0) (s.rtdb.longitude.getD 0)
          s.nav.end_lat s.nav.end_lng < 0.05) := by
    simp [arriveCheck, statusIsRunning2, hrun, hcur, hlatS, hlngS, hnav, hnavg, hlat, hlng]
  have hDp : depleteCheck s now = false := by
    simp [depleteCheck, hrun]
    omega
  by_cases hD : distKm (s.rtdb.latitude.getD 0) (s.rtdb.longitude.getD 0)
      s.nav.end_lat s.nav.end_lng < 0.05
  · have hA : arriveCheck distKm s now = true := by simp [hAiff, hD]
    unfold statusPoll
    by_cases hP : persistCheck s now <;>
      by_cases hDis : dispatchCheck s now
    all_goals simp_all
  · have hA : arriveCheck distKm s now = false := by simp [hAiff, hD]
    unfold statusPoll
    by_cases hP : persistCheck s now <;>
      by_cases hDis : dispatchCheck s now
    all_goals simp_all

theorem arrival_detection_iff_witness :
    ((statusPoll dkNear sRun 10000).response.arrivalCompleted = some true
        ↔ dkNear (sRun.rtdb.latitude.getD 0) (sRun.rtdb.longitude.getD 0)
            sRun.nav.end_lat sRun.nav.end_lng < 0.05) ∧
      (dkNear (sRun.rtdb.latitude.getD 0) (sRun.rtdb.longitude.getD 0)
          sRun.nav.end_lat sRun.nav.end_lng < 0.05 →
        (statusPoll dkNear sRun 10000).state.vehicle.isRunning = false ∧
          (statusPoll dkNear sRun 10000).state.vehicle.batteryLevel
            = some ((pollBatteryLevel sRun.vehicle 10000 : ℤ) : ℚ) ∧
          (statusPoll dkNear sRun 10000).state.rtdb.batteryLevel
            = some ((pollBatteryLevel sRun.vehicle 10000 : ℤ) : ℚ) ∧
          (statusPoll dkNear sRun 10000).state.nav.vehicleReachedStation = true ∧
          (statusPoll dkNear sRun 10000).response.isRunning = false) :=
  arrival_detection_iff dkNear sRun 10000 0 100 rfl rfl rfl rfl
    (by norm_num [pollBatteryLevel, projectBattery, jsRound, jsOrNum, numTruthy, sRun, vRun])
    rfl (by simp [numTruthy, sRun, rtRun]) (by simp [numTruthy, sRun, rtRun]) rfl rfl

/-- C4 (amended): within a run, a status poll dispatches the low-battery
notification exactly when the projected level is ≤ 20 and the persisted
`notificationSent` flag is false, and then persists the flag; over any
sequence of status polls at most one dispatch occurs, a status poll never
clears the flag, and a successful `/api/start` resets it to false.  (The
original claim that `/api/start` is the *only* operation that resets the
flag is refuted by `notification_reset_by_reset_cex`: `/api/reset` also
clears it.) -/
theorem notification_once_per_run
    (distKm distKm₁ distKm₂ : ℚ → ℚ → ℚ → ℚ → ℚ) (s s₁ s₂ s₃ : ServerState)
    (now now₁ now₃ t b : ℚ) (times : List ℚ) (ib dr : Option ℚ)
    (hex : s.vehicle.docExists = true)
    (hrun : s.vehicle.isRunning = true)
    (hst : s.vehicle.startTime = some t)
    (hsb : s.vehicle.startBatteryLevel = some b)
    (hflag₁ : s₁.vehicle.notificationSent = true)
    (hc₃ : s₃.vehicle.docExists = false ∨ s₃.vehicle.isRunning = false) :
    ((statusPoll distKm s now).dispatched = true
        ↔ pollBatteryLevel s.vehicle now ≤ 20 ∧ s.vehicle.notificationSent = false) ∧
      ((statusPoll distKm s now).dispatched = true →
        (statusPoll distKm s now).state.vehicle.notificationSent = true) ∧
      (statusPoll distKm₁ s₁ now₁).dispatched = false ∧
      (statusPoll distKm₁ s₁ now₁).state.vehicle.notificationSent = true ∧
      (pollSeq distKm₂ s₂ times).2 ≤ 1 ∧
      (startHandler s₃ now₃ ib dr).statusCode = 200 ∧
      (startHandler s₃ now₃ ib dr).state.vehicle.notificationSent = false := by
  obtain ⟨hf1, hf2⟩ := statusPoll_flag_true_no_dispatch distKm₁ s₁ now₁ hflag₁
  refine ⟨?_, statusPoll_dispatch_sets_flag distKm s now, hf1, hf2,
    pollSeq_dispatch_le_one distKm₂ times s₂, ?_, ?_⟩
  · unfold statusPoll
    by_cases hA : arriveCheck distKm s now <;>
      by_cases hP : persistCheck s now <;>
        by_cases hDp : depleteCheck s now <;>
          simp_all [dispatchCheck]
  · rcases hc₃ with h | h <;> simp [startHandler, h]
  · rcases hc₃ with h | h <;> simp [startHandler, h]

theorem notification_once_per_run_witness :
    ((statusPoll dkFar sRun 45000).dispatched = true
        ↔ pollBatteryLevel sRun.vehicle 45000 ≤ 20 ∧ sRun.vehicle.notificationSent = false) ∧
      ((statusPoll dkFar sRun 45000).dispatched = true →
        (statusPoll dkFar sRun 45000).state.vehicle.notificationSent = true) ∧
      (statusPoll dkFar sNotifSent 45000).dispatched = false ∧
      (statusPoll dkFar sNotifSent 45000).state.vehicle.notificationSent = true ∧
      (pollSeq dkFar sRun [45000, 46000]).2 ≤ 1 ∧
      (startHandler sIdle 7 none none).statusCode = 200 ∧
      (startHandler sIdle 7 none none).state.vehicle.notificationSent = false :=
  notification_once_per_run dkFar dkFar dkFar sRun sNotifSent sRun sIdle 45000 45000 7 0 100
    [45000, 46000] none none rfl rfl rfl rfl rfl (Or.inr rfl)

/-- C4 counterexample: `/api/reset` also sets `notificationSent` back to
`false`, so a new run via `/api/start` is not the only operation that resets
the flag. -/
theorem notification_reset_by_reset_cex :
    sNotifSent.vehicle.notificationSent = true ∧
      (resetHandler sNotifSent).statusCode = 200 ∧
      (resetHandler sNotifSent).state.vehicle.notificationSent = false := by
  refine ⟨rfl, rfl, ?_⟩
  simp [resetHandler]

/-- C5: in an arrived state (vehicle document present and idle, navigation
document present with `vehicleReachedStation` set) every status poll reports
`arrivalCompleted = true`, leaves the state untouched and dispatches nothing;
`/api/end-navigation` clears `isNavigating`, `isRunning` and
`vehicleReachedStation` on the navigation document, and no other operation
(status poll, start, stop, update-drain-rate, reset) ever clears
`vehicleReachedStation`. -/
theorem arrived_state_stable
    (distKm distKm' : ℚ → ℚ → ℚ → ℚ → ℚ) (s s' : ServerState)
    (now now' : ℚ) (ib dr : Option ℚ) (r' : ℚ)
    (hex : s.vehicle.docExists = true)
    (hidle : s.vehicle.isRunning = false)
    (hnav : s.nav.docExists = true)
    (hreach : s.nav.vehicleReachedStation = true)
    (hreach' : s'.nav.vehicleReachedStation = true) :
    (statusPoll distKm s now).response.arrivalCompleted = some true ∧
      (statusPoll distKm s now).state = s ∧
      (statusPoll distKm s now).dispatched = false ∧
      (endNavigationHandler s).state.nav.isNavigating = false ∧
      (endNavigationHandler s).state.nav.isRunning = false ∧
      (endNavigationHandler s).state.nav.vehicleReachedStation = false ∧
      (statusPoll distKm' s' now').state.nav.vehicleReachedStation = true ∧
      (startHandler s' now' ib dr).state.nav.vehicleReachedStation = true ∧
      (stopHandler s' now').state.nav.vehicleReachedStation = true ∧
      (updateDrainRateHandler s' r').state.nav.vehicleReachedStation = true ∧
      (resetHandler s').state.nav.vehicleReachedStation = true := by
  refine ⟨?_, ?_, ?_, ?_, ?_, ?_, statusPoll_reach_preserved distKm' s' now' hreach', ?_, ?_, ?_, ?_⟩
  · unfold statusPoll
    simp [hex, hidle, hnav, hreach]
  · unfold statusPoll
    simp [hex, hidle]
  · unfold statusPoll
    simp [hex, hidle]
  · simp [endNavigationHandler, hnav]
  · simp [endNavigationHandler, hnav]
  · simp [endNavigationHandler, hnav]
  · unfold startHandler
    split <;> simp_all
  · unfold stopHandler
    split
    · simp_all
    · split <;> simp_all
  · unfold updateDrainRateHandler
    split <;> simp_all
  · simp [resetHandler, hreach']

theorem arrived_state_stable_witness :
    (statusPoll dkFar sArrived 99).response.arrivalCompleted = some true ∧
      (statusPoll dkFar sArrived 99).state = sArrived ∧
      (statusPoll dkFar sArrived 99).dispatched = false ∧
      (endNavigationHandler sArrived).state.nav.isNavigating = false ∧
      (endNavigationHandler sArrived).state.nav.isRunning = false ∧
      (endNavigationHandler sArrived).state.nav.vehicleReachedStation = false ∧
      (statusPoll dkNear sArrived 99).state.nav.vehicleReachedStation = true ∧
      (startHandler sArrived 99 none none).state.nav.vehicleReachedStation = true ∧
      (stopHandler sArrived 99).state.nav.vehicleReachedStation = true ∧
      (updateDrainRateHandler sArrived 3).state.nav.vehicleReachedStation = true ∧
      (resetHandler sArrived).state.nav.vehicleReachedStation = true :=
  arrived_state_stable dkFar dkNear sArrived sArrived 99 99 none none 3 rfl rfl rfl rfl rfl

/-- C6: a poll whose projected level is 0 forces `isRunning = false` with
battery 0 persisted in both stores (the arrival check cannot fire since the
derived running flag is already false), and from any state with an idle
vehicle document and a mirrored battery of 0 every later poll keeps
reporting `isRunning = false`, `batteryLevel = 0` and changes nothing. -/
theorem depletion_forces_idle
    (distKm distKm' : ℚ → ℚ → ℚ → ℚ → ℚ) (s s' : ServerState) (now now' t b : ℚ)
    (hex : s.vehicle.docExists = true)
    (hrun : s.vehicle.isRunning = true)
    (hst : s.vehicle.startTime = some t)
    (hsb : s.vehicle.startBatteryLevel = some b)
    (hdep : pollBatteryLevel s.vehicle now = 0)
    (hex' : s'.vehicle.docExists = true)
    (hidle' : s'.vehicle.isRunning = false)
    (hrt' : s'.rtdb.docExists = true)
    (hb' : s'.rtdb.batteryLevel = some 0) :
    (statusPoll distKm s now).response.isRunning = false ∧
      (statusPoll distKm s now).state.vehicle.isRunning = false ∧
      (statusPoll distKm s now).state.vehicle.batteryLevel = some 0 ∧
      (statusPoll distKm s now).state.rtdb.isRunning = false ∧
      (statusPoll distKm s now).state.rtdb.batteryLevel = some 0 ∧
      (statusPoll distKm s now).state.rtdb.docExists = true ∧
      (statusPoll distKm s now).state.vehicle.docExists = true ∧
      (statusPoll distKm' s' now').response.isRunning = false ∧
      (statusPoll distKm' s' now').response.batteryLevel = 0 ∧
      (statusPoll distKm' s' now').state = s' := by
  have hDp : depleteCheck s now = true := by simp [depleteCheck, hrun, hdep]
  have hA : arriveCheck distKm s now = false := by
    simp [arriveCheck, statusIsRunning2, hdep]
  have hQ : rtdbStatusBattery s' = 0 := by simp [rtdbStatusBattery, hrt', hb']
  have hs : (statusPoll distKm s now).response.isRunning = false ∧
      (statusPoll distKm s now).state.vehicle.isRunning = false ∧
      (statusPoll distKm s now).state.vehicle.batteryLevel = some 0 ∧
      (statusPoll distKm s now).state.rtdb.isRunning = false ∧
      (statusPoll distKm s now).state.rtdb.batteryLevel = some 0 ∧
      (statusPoll distKm s now).state.rtdb.docExists = true ∧
      (statusPoll distKm s now).state.vehicle.docExists = true := by
    unfold statusPoll
    by_cases hP : persistCheck s now <;>
      by_cases hDis : dispatchCheck s now <;> simp_all
  have hq1 : (statusPoll distKm' s' now').response.isRunning = false := by
    unfold statusPoll
    simp [hex', hidle']
    split <;> simp
  have hq2 : (statusPoll distKm' s' now').response.batteryLevel = 0 := by
    unfold statusPoll
    simp [hex', hidle', hQ]
    split <;> simp
  have hq3 : (statusPoll distKm' s' now').state = s' := by
    unfold statusPoll
    simp [hex', hidle']
  exact ⟨hs.1, hs.2.1, hs.2.2.1, hs.2.2.2.1, hs.2.2.2.2.1, hs.2.2.2.2.2.1,
    hs.2.2.2.2.2.2, hq1, hq2, hq3⟩

theorem depletion_forces_idle_witness :
    (statusPoll dkFar sRun 50000).response.isRunning = false ∧
      (statusPoll dkFar sRun 50000).state.vehicle.isRunning = false ∧
      (statusPoll dkFar sRun 50000).state.vehicle.batteryLevel = some 0 ∧
      (statusPoll dkFar sRun 50000).state.rtdb.isRunning = false ∧
      (statusPoll dkFar sRun 50000).state.rtdb.batteryLevel = some 0 ∧
      (statusPoll dkFar sRun 50000).state.rtdb.docExists = true ∧
      (statusPoll dkFar sRun 50000).state.vehicle.docExists = true ∧
      (statusPoll dkFar sDepleted 99).response.isRunning = false ∧
      (statusPoll dkFar sDepleted 99).response.batteryLevel = 0 ∧
      (statusPoll dkFar sDepleted 99).state = sDepleted :=
  depletion_forces_idle dkFar dkFar sRun sDepleted 50000 99 0 100 rfl rfl rfl rfl
    (by norm_num [pollBatteryLevel, projectBattery, jsRound, jsOrNum, numTruthy, sRun, vRun])
    rfl rfl rfl rfl

/-- C7: the three conflict cases — `/api/start` while running,
`/api/update-drain-rate` while not running, `/api/stop` while not running —
return 400 with their descriptive messages and leave the state unchanged. -/
theorem conflict_no_mutation
    (s₁ s₂ : ServerState) (now now₂ : ℚ) (ib dr : Option ℚ) (r : ℚ)
    (h₁ : s₁.vehicle.docExists = true)
    (h₁r : s₁.vehicle.isRunning = true)
    (h₂ : s₂.vehicle.docExists = false ∨ s₂.vehicle.isRunning = false) :
    startHandler s₁ now ib dr
        = { statusCode := 400, message := "Car is already running.", state := s₁ } ∧
      updateDrainRateHandler s₂ r
        = { statusCode := 400,
            message := "Cannot update drain rate for a vehicle that is not running.",
            state := s₂ } ∧
      stopHandler s₂ now₂
        = { statusCode := 400, message := "Car is not running.", state := s₂ } := by
  refine ⟨?_, ?_, ?_⟩
  · simp [startHandler, h₁, h₁r]
  · rcases h₂ with h | h <;> simp [updateDrainRateHandler, h]
  · rcases h₂ with h | h <;> simp [stopHandler, h]

theorem conflict_no_mutation_witness :
    startHandler sRun 5 none none
        = { statusCode := 400, message := "Car is already running.", state := sRun } ∧
      updateDrainRateHandler sIdle 3
        = { statusCode := 400,
            message := "Cannot update drain rate for a vehicle that is not running.",
            state := sIdle } ∧
      stopHandler sIdle 6
        = { statusCode := 400, message := "Car is not running.", state := sIdle } :=
  conflict_no_mutation sRun sIdle 5 6 none none 3 rfl rfl (Or.inr rfl)

/-- C8 (amended): `/api/start` replaces a falsy (absent or zero) `drainRate`
by the default 2.0, but neither `/api/start` nor `/api/update-drain-rate`
rejects a non-positive drain rate: `/api/update-drain-rate` on a running
vehicle persists any supplied rate, including negative ones, and
`/api/start` persists any truthy rate, so the persisted
`drainRatePercentPerSecond` is not guaranteed to be positive.  (The original
claim is refuted by `negative_drain_rate_cex`.) -/
theorem drain_rate_unvalidated
    (s s' : ServerState) (now : ℚ) (r r' : ℚ) (ib : Option ℚ)
    (hex : s.vehicle.docExists = true)
    (hrun : s.vehicle.isRunning = true)
    (hc' : s'.vehicle.docExists = false ∨ s'.vehicle.isRunning = false)
    (hr' : r' ≠ 0) :
    (updateDrainRateHandler s r).statusCode = 200 ∧
      (updateDrainRateHandler s r).state.vehicle.drainRate = some r ∧
      (startHandler s' now ib (some 0)).state.vehicle.drainRate = some 2 ∧
      (startHandler s' now ib (some r')).state.vehicle.drainRate = some r' := by
  refine ⟨?_, ?_, ?_, ?_⟩
  · simp [updateDrainRateHandler, hex, hrun]
  · simp [updateDrainRateHandler, hex, hrun]
  · rcases hc' with h | h <;> simp [startHandler, h, numTruthy]
  · rcases hc' with h | h <;> simp [startHandler, h, numTruthy, hr']

theorem drain_rate_unvalidated_witness :
    (updateDrainRateHandler sRun (-1)).statusCode = 200 ∧
      (updateDrainRateHandler sRun (-1)).state.vehicle.drainRate = some (-1) ∧
      (startHandler sIdle 5 none (some 0)).state.vehicle.drainRate = some 2 ∧
      (startHandler sIdle 5 none (some (-3))).state.vehicle.drainRate = some (-3) :=
  drain_rate_unvalidated sRun sIdle 5 (-1) (-3) none rfl rfl (Or.inr rfl) (by norm_num)

/-- C8 counterexample: `/api/update-drain-rate` on a running vehicle accepts
drain rate −1 and persists it, so the stored rate is not always positive. -/
theorem negative_drain_rate_cex :
    (updateDrainRateHandler sRun (-1)).statusCode = 200 ∧
      (updateDrainRateHandler sRun (-1)).state.vehicle.drainRate = some (-1) ∧
      ¬(0 < (-1 : ℚ)) := by
  norm_num [updateDrainRateHandler, sRun, vRun]

/-- C9: a running, navigating vehicle whose stored latitude or longitude is
exactly 0 never triggers arrival detection — even when the distance to the
target is below 0.05 km — because the guard on line 219 tests JavaScript
truthiness of the coordinates, and 0 is falsy. -/
theorem zero_coordinate_blocks_arrival
    (distKm : ℚ → ℚ → ℚ → ℚ → ℚ) (s : ServerState) (now t b : ℚ)
    (hex : s.vehicle.docExists = true)
    (hrun : s.vehicle.isRunning = true)
    (hst : s.vehicle.startTime = some t)
    (hsb : s.vehicle.startBatteryLevel = some b)
    (hcur : 0 < pollBatteryLevel s.vehicle now)
    (hrt : s.rtdb.docExists = true)
    (hzero : s.rtdb.latitude = some 0 ∨ s.rtdb.longitude = some 0)
    (hnav : s.nav.docExists = true)
    (hnavg : s.nav.isNavigating = true)
    (hnear : distKm (s.rtdb.latitude.getD 0) (s.rtdb.longitude.getD 0)
        s.nav.end_lat s.nav.end_lng < 0.05) :
    (statusPoll distKm s now).response.arrivalCompleted = none ∧
      (statusPoll distKm s now).state.nav = s.nav ∧
      (statusPoll distKm s now).state.vehicle.isRunning = true ∧
      (statusPoll distKm s now).response.isRunning = true := by
  have hA : arriveCheck distKm s now = false := by
    rcases hzero with h | h
    · simp [arriveCheck, rtdbStatusLat, jsOrNull, numTruthy, hrt, h]
    · simp [arriveCheck, rtdbStatusLng, jsOrNull, numTruthy, hrt, h]
  have hDp : depleteCheck s now = false := by
    simp [depleteCheck]
    omega
  unfold statusPoll
  by_cases hP : persistCheck s now <;>
    by_cases hDis : dispatchCheck s now
  all_goals simp_all [statusIsRunning2]

theorem zero_coordinate_blocks_arrival_witness :
    (statusPoll dkNear sLat0 10000).response.arrivalCompleted = none ∧
      (statusPoll dkNear sLat0 10000).state.nav = sLat0.nav ∧
      (statusPoll dkNear sLat0 10000).state.vehicle.isRunning = true ∧
      (statusPoll dkNear sLat0 10000).response.isRunning = true :=
  zero_coordinate_blocks_arrival dkNear sLat0 10000 0 100 rfl rfl rfl rfl
    (by norm_num [pollBatteryLevel, projectBattery, jsRound, jsOrNum, numTruthy, sLat0, sRun, vRun])
    rfl (Or.inl rfl) rfl rfl (by norm_num [dkNear])

/-- C10: `/api/start` treats a supplied `initialBattery` of 0 and a supplied
`drainRate` of 0 as absent (truthiness): the run starts from the previously
persisted `batteryLevel` (or 100 when the field or document is missing) and
with drain rate 2.0; likewise the status handler's projection substitutes
2.0 for a stored drain rate of 0. -/
theorem start_falsy_defaults
    (s s' : ServerState) (now now' now2 : ℚ) (d : VehicleDoc) (t b p : ℚ)
    (hex : s.vehicle.docExists = true)
    (hnr : s.vehicle.isRunning = false)
    (hbl : s.vehicle.batteryLevel = some p)
    (hnr' : s'.vehicle.isRunning = false)
    (hbl' : s'.vehicle.batteryLevel = none)
    (hd0 : d.drainRate = some 0)
    (ht : d.startTime = some t)
    (hsb : d.startBatteryLevel = some b) :
    (startHandler s now (some 0) (some 0)).statusCode = 200 ∧
      (startHandler s now (some 0) (some 0)).state.vehicle.startBatteryLevel = some p ∧
      (startHandler s now (some 0) (some 0)).state.rtdb.batteryLevel = some p ∧
      (startHandler s now (some 0) (some 0)).state.vehicle.drainRate = some 2 ∧
      (startHandler s' now' (some 0) (some 0)).state.vehicle.startBatteryLevel = some 100 ∧
      pollBatteryLevel d now2 = max 0 (jsRound (b - ((now2 - t) / 1000) * 2)) := by
  refine ⟨?_, ?_, ?_, ?_, ?_, ?_⟩
  · simp [startHandler, hnr]
  · simp [startHandler, hnr, numTruthy, hex, hbl]
  · simp [startHandler, hnr, numTruthy, hex, hbl]
  · simp [startHandler, hnr, numTruthy]
  · by_cases hex' : s'.vehicle.docExists <;>
      simp [startHandler, hnr', numTruthy, hex', hbl']
  · simp [pollBatteryLevel, projectBattery, jsOrNum, numTruthy, hd0, ht, hsb]

theorem start_falsy_defaults_witness :
    (startHandler sIdle 5 (some 0) (some 0)).statusCode = 200 ∧
      (startHandler sIdle 5 (some 0) (some 0)).state.vehicle.startBatteryLevel = some 100 ∧
      (startHandler sIdle 5 (some 0) (some 0)).state.rtdb.batteryLevel = some 100 ∧
      (startHandler sIdle 5 (some 0) (some 0)).state.vehicle.drainRate = some 2 ∧
      (startHandler sNoBat 6 (some 0) (some 0)).state.vehicle.startBatteryLevel = some 100 ∧
      pollBatteryLevel vDrain0 7000 = max 0 (jsRound (100 - ((7000 - 0) / 1000) * 2)) :=
  start_falsy_defaults sIdle sNoBat 5 6 7000 vDrain0 0 100 100 rfl rfl rfl rfl rfl rfl rfl rfl
